import Mathlib

/-!
Verification of the solar-charging backend's command protocol engine and
charge-session state machine, shallowly embedded from the Python sources
`app/mqtt/client.py` and `app/scheduler/manager.py`.

Modelling conventions:
* Per-setting confirmation outcomes of `MQTTClient._publish_and_wait` are
  abstracted, where the scheduler consumes them, as an oracle
  `confirm : String → String → Bool`; the wait mechanism itself is embedded
  concretely over lists of inbound acknowledgments.
* Side effects are recorded as an explicit `Action` trace; mutations of
  `is_charging` and timer/job bookkeeping appear both in the returned state
  and, where ordering matters, as trace entries.
* Wall-clock datetimes (`datetime.now()`, `timedelta(days=1)`) are embedded
  as a local-time record with day index and microsecond precision.
-/

namespace SolarCharging

/-- An inbound `/response` message, `{setting: string, success: bool, ...}`
as parsed in `MQTTClient._on_message` (client.py lines 177-190). -/
structure Ack where
  setting : String
  success : Bool
deriving DecidableEq, Repr

/-- The response-wait fields of `MQTTClient`: `_pending_setting`,
`_last_response`, and whether the one-shot `_response_event` has been set.
In the source the event object exists exactly while `_pending_setting` is
set (both are installed in `_publish_and_wait` and cleared in its
`finally`), so a single `Option String` models both. -/
structure WaitState where
  pendingSetting : Option String
  lastResponse : Option Ack
  eventSet : Bool
deriving DecidableEq, Repr

/-- The `/response` branch of `MQTTClient._on_message` (client.py lines
177-190): store the payload in `_last_response`, and set the event iff a
wait is outstanding and the message's `setting` equals the pending key. -/
def onResponse (a : Ack) (s : WaitState) : WaitState :=
  { pendingSetting := s.pendingSetting
    lastResponse := some a
    eventSet := s.eventSet ||
      match s.pendingSetting with
      | some p => a.setting == p
      | none => false }

/-- First acknowledgment in the inbound stream whose key equals the pending
key; `none` models the 15-second wait elapsing with no match. -/
def firstMatching (p : String) : List Ack → Option Ack
  | [] => none
  | a :: rest => if a.setting == p then some a else firstMatching p rest

/-- `MQTTClient._publish_and_wait` (client.py lines 195-257) over the list
of acknowledgments arriving before the timeout: fail fast when not
connected or when the transport publish is rejected; otherwise resolve at
the first key-matching acknowledgment and return its `success` flag, or
return false on timeout. -/
def publishAndWait (connected : Bool) (publishOk : Bool) (p : String)
    (acks : List Ack) : Bool :=
  if !connected then false
  else if !publishOk then false
  else
    match firstMatching p acks with
    | some a => a.success
    | none => false

/-- Observable effects of the scheduler/client code, in program order. -/
inductive Action where
  | publish (key value : String)
  | sleepHalf
  | clearFlag
  | cancelTimer
  | cancelMonitor
  | cancelJob
  | startMonitor
  | scheduleCutoff
  | reschedule
  | clearSchedule
  | notifyComplete
deriving DecidableEq, Repr

/-- Projection of a trace entry to its published (key, value) pair. -/
def pubOf : Action → Option (String × String)
  | Action.publish k v => some (k, v)
  | _ => none

/-- The settings published along a trace, in order. -/
def publishesOf (tr : List Action) : List (String × String) :=
  tr.filterMap pubOf

/-- `MQTTClient.publish_settings_sequentially` (client.py lines 259-286):
publish each (key, value) via `_publish_and_wait`; on a failed step keep
going but record failure and sleep `PUBLISH_DELAY_FALLBACK` (0.5 s); return
true only when every step confirmed.  The per-step outcome is the
`confirm` oracle. -/
def publishSettingsSequentially (confirm : String → String → Bool) :
    List (String × String) → List Action × Bool
  | [] => ([], true)
  | (k, v) :: rest =>
    let ok := confirm k v
    let r := publishSettingsSequentially confirm rest
    if ok then (Action.publish k v :: r.1, r.2)
    else (Action.publish k v :: Action.sleepHalf :: r.1, false)

/-- Character of a decimal digit test for a bounded range, via code points. -/
def charInRange (lo hi c : Char) : Bool :=
  Nat.ble lo.toNat c.toNat && Nat.ble c.toNat hi.toNat

/-- The regex `^([01]\d|2[0-3]):([0-5]\d)$` used by
`ChargingScheduleManager._calculate_next_run` and `_extract_time_string`
(manager.py lines 132 and 263) to recognise the legacy HH:MM format. -/
def matchesHHMM (s : String) : Bool :=
  match s.data with
  | [h1, h2, c, m1, m2] =>
    ((charInRange '0' '1' h1 && charInRange '0' '9' h2) ||
      (h1 == '2' && charInRange '0' '3' h2)) &&
    c == ':' &&
    charInRange '0' '5' m1 && charInRange '0' '9' m2
  | _ => false

/-- Decimal value of a digit list, `none` when empty or a non-digit occurs;
models Python `int()` on the digit strings produced by `split(":")`. -/
def digitsToNat : List Char → Option Nat
  | [] => none
  | l => l.foldl (fun acc c =>
      match acc with
      | none => none
      | some n => if charInRange '0' '9' c then some (n * 10 + (c.toNat - 48)) else none)
      (some 0)

/-- Python's `str.split(":")` at the character level: every maximal run
between colons becomes a part (empty parts included, as in Python). -/
def splitColon : List Char → List (List Char)
  | [] => [[]]
  | c :: rest =>
    let ps := splitColon rest
    if c = ':' then [] :: ps
    else
      match ps with
      | [] => [[c]]
      | p :: tail => (c :: p) :: tail

/-- `hour, minute = map(int, start_time.split(":"))` (manager.py lines 151
and 276), returning `none` where Python would raise `ValueError`. -/
def parseHM (s : String) : Option (Nat × Nat) :=
  match (splitColon s.data).map digitsToNat with
  | [some h, some m] => some (h, m)
  | _ => none

/-- Python's `f"{n:02d}"` for the 0 ≤ n < 100 values used here. -/
def fmt2 (n : Nat) : String :=
  if n < 10 then "0" ++ toString n else toString n

/-- `ChargingScheduleManager._calculate_end_time` (manager.py lines
274-278): end hour = (start hour + offset) mod 24, minute unchanged,
rendered `f"{end_hour:02d}:{minute:02d}"`.  Inputs come from
`_extract_time_string` and are HH:MM-shaped, so the parse succeeds; a
malformed input (where Python would raise) falls back to "00:00" here and
is never exercised by the theorems. -/
def calculateEndTime (s : String) (hoursOffset : Nat) : String :=
  match parseHM s with
  | some (h, m) => fmt2 ((h + hoursOffset) % 24) ++ ":" ++ fmt2 m
  | none => "00:00"

/-- `ChargingScheduleManager._extract_time_string` (manager.py lines
260-272): an HH:MM input is returned unchanged; otherwise the ISO 8601
parse-and-format (external `dateutil`) is the oracle `isoHHMM`, and on
parse failure the current wall-clock time formatted HH:MM is used. -/
def extractTimeString (isoHHMM : String → Option String) (nowHHMM : String)
    (s : String) : String :=
  if matchesHHMM s then s
  else
    match isoHHMM s with
    | some t => t
    | none => nowHHMM

/-- `MQTTClient.publish_time_settings`'s fixed settings list (client.py
lines 312-319): the active window plus the two secondary windows zeroed. -/
def timeSettings (startTime endTime : String) : List (String × String) :=
  [("ACChgStart", startTime),
   ("ACChgEnd", endTime),
   ("ACChgStart1", "00:00"),
   ("ACChgEnd1", "00:00"),
   ("ACChgStart2", "00:00"),
   ("ACChgEnd2", "00:00")]

/-- Internal schedule data (`ScheduleData`, models/schedule.py); only the
fields the scheduler logic reads are embedded (`created_at`, `last_run`,
`next_run` are bookkeeping timestamps no claim depends on).  `mode` is the
string compared against `"recurring"`/`"once"` in manager.py. -/
structure ScheduleData where
  targetSoc : Nat
  startTime : String
  mode : String
  enabled : Bool
deriving DecidableEq, Repr

/-- The `ChargingScheduleManager` fields the claims are about:
`is_charging`, whether a monitoring task is live, whether the
`safety_cutoff` job is armed, and `current_schedule`. -/
structure ManagerState where
  isCharging : Bool
  monitoringActive : Bool
  cutoffArmed : Bool
  currentSchedule : Option ScheduleData
deriving DecidableEq, Repr

/-- `ChargingScheduleManager._start_charging` (manager.py lines 203-258):
enable AC charging, then the time-window group, then `ACChgMode=4`, then
`ACChgSOCLimit`, each group gated on confirmation with a 0.5 s pause
between groups; abort with `false` as soon as a group fails, and report
`true` (setting `is_charging` in the caller model) only when all four
succeeded. -/
def startCharging (confirm : String → String → Bool)
    (isoHHMM : String → Option String) (nowHHMM : String)
    (startTime : String) (cutoffHours targetSoc : Nat) :
    List Action × Bool :=
  let e := [Action.publish "ACCharge" "1"]
  if !confirm "ACCharge" "1" then (e, false)
  else
    let st := extractTimeString isoHHMM nowHHMM startTime
    let en := calculateEndTime st cutoffHours
    let grp := publishSettingsSequentially confirm (timeSettings st en)
    if !grp.2 then (e ++ Action.sleepHalf :: grp.1, false)
    else
      let m := [Action.publish "ACChgMode" "4"]
      if !confirm "ACChgMode" "4" then
        (e ++ Action.sleepHalf :: grp.1 ++ Action.sleepHalf :: m, false)
      else
        let so := [Action.publish "ACChgSOCLimit" (toString targetSoc)]
        if !confirm "ACChgSOCLimit" (toString targetSoc) then
          (e ++ Action.sleepHalf :: grp.1 ++ Action.sleepHalf :: m ++
            Action.sleepHalf :: so, false)
        else
          (e ++ Action.sleepHalf :: grp.1 ++ Action.sleepHalf :: m ++
            Action.sleepHalf :: so, true)

/-- The full ordered (key, value) list a successful `_start_charging`
publishes, assembled from the same helpers the trace uses. -/
def startSettingsList (isoHHMM : String → Option String) (nowHHMM : String)
    (startTime : String) (cutoffHours targetSoc : Nat) :
    List (String × String) :=
  let st := extractTimeString isoHHMM nowHHMM startTime
  ("ACCharge", "1") :: timeSettings st (calculateEndTime st cutoffHours) ++
    [("ACChgMode", "4"), ("ACChgSOCLimit", toString targetSoc)]

/-- `ChargingScheduleManager._stop_charging` (manager.py lines 280-295):
publish `ACCharge=0` (its boolean return is discarded), set
`is_charging = False`, clear `charge_started_at`, then remove the
`safety_cutoff` job when one exists.  The monitoring task is not touched
here — it terminates on its own once `is_charging` is false or via its own
`break`. -/
def stopCharging (confirm : String → String → Bool) (st : ManagerState) :
    ManagerState × List Action :=
  let _ := confirm "ACCharge" "0"
  ({ st with isCharging := false, cutoffArmed := false },
   Action.publish "ACCharge" "0" :: Action.clearFlag ::
     (if st.cutoffArmed then [Action.cancelTimer] else []))

/-- `ChargingScheduleManager._reschedule_recurring` (manager.py lines
354-371): re-arm the charge job for the next occurrence unless the
schedule is disabled. -/
def rescheduleRecurring (sched : ScheduleData) : List Action :=
  if sched.enabled then [Action.reschedule] else []

/-- `ChargingScheduleManager._clear_one_time_schedule` (manager.py lines
373-384): remove any pending charge job and drop `current_schedule`. -/
def clearOneTimeSchedule (st : ManagerState) : ManagerState × List Action :=
  ({ st with currentSchedule := none }, [Action.clearSchedule])

/-- `ChargingScheduleManager._safety_cutoff` (manager.py lines 340-352):
stop charging, then branch on `self.current_schedule.mode` — reschedule a
recurring schedule, clear a one-time schedule, do nothing when no schedule
is set. -/
def safetyCutoff (confirm : String → String → Bool) (st : ManagerState) :
    ManagerState × List Action :=
  let r := stopCharging confirm st
  match r.1.currentSchedule with
  | some cs =>
    if cs.mode == "recurring" then (r.1, r.2 ++ rescheduleRecurring cs)
    else if cs.mode == "once" then
      let c := clearOneTimeSchedule r.1
      (c.1, r.2 ++ c.2)
    else (r.1, r.2)
  | none => (r.1, r.2)

/-- The target-reached branch of `ChargingScheduleManager._monitor_charging`
(manager.py lines 310-328): stop charging, fire the completion
notification, then reschedule when the session schedule's mode is
`"recurring"` and a `current_schedule` exists, or clear when its mode is
`"once"`. -/
def targetReachedStop (confirm : String → String → Bool)
    (sessionSched : ScheduleData) (st : ManagerState) :
    ManagerState × List Action :=
  let r := stopCharging confirm st
  let tr := r.2 ++ [Action.notifyComplete]
  match r.1.currentSchedule with
  | some cs =>
    if sessionSched.mode == "recurring" then (r.1, tr ++ rescheduleRecurring cs)
    else if sessionSched.mode == "once" then
      let c := clearOneTimeSchedule r.1
      (c.1, tr ++ c.2)
    else (r.1, tr)
  | none =>
    if sessionSched.mode == "recurring" then (r.1, tr)
    else if sessionSched.mode == "once" then
      let c := clearOneTimeSchedule r.1
      (c.1, tr ++ c.2)
    else (r.1, tr)

/-- The wake-by-wake SOC comparison of the monitoring loop
(`ChargingScheduleManager._monitor_charging`, manager.py lines 300-311)
over a list of last-known SOC samples: a `none` sample (`current_soc is
None`) continues monitoring; the loop stops at the first sample that is a
known SOC ≥ target.  Returns the index of the stopping wake, or `none`
when the samples are exhausted without stopping. -/
def monitorStop (targetSoc : Nat) : List (Option Nat) → Option Nat
  | [] => none
  | s :: rest =>
    match s with
    | some soc =>
      if targetSoc ≤ soc then some 0
      else (monitorStop targetSoc rest).map (· + 1)
    | none => (monitorStop targetSoc rest).map (· + 1)

/-- `ChargingScheduleManager._execute_charge` (manager.py lines 162-201):
when the last-known SOC is known and already at or above target, skip the
device entirely and reschedule only a recurring schedule; otherwise run
`_start_charging`, and only on its success mark the session charging,
start the monitoring task and arm the safety cutoff. -/
def executeCharge (confirm : String → String → Bool)
    (isoHHMM : String → Option String) (nowHHMM : String)
    (currentSoc : Option Nat) (sched : ScheduleData) (cutoffHours : Nat)
    (st : ManagerState) : ManagerState × List Action :=
  let startPath :=
    let r := startCharging confirm isoHHMM nowHHMM sched.startTime cutoffHours sched.targetSoc
    if r.2 then
      ({ st with isCharging := true, monitoringActive := true, cutoffArmed := true },
       r.1 ++ [Action.startMonitor, Action.scheduleCutoff])
    else (st, r.1)
  match currentSoc with
  | some soc =>
    if sched.targetSoc ≤ soc then
      (st, if sched.mode == "recurring" then rescheduleRecurring sched else [])
    else startPath
  | none => startPath

/-- `ChargingScheduleManager.cancel_schedule` (manager.py lines 107-122):
remove the charge job when armed, cancel the monitoring task when one is
live, then — if a session is charging — run `_stop_charging`, and finally
drop `current_schedule`. -/
def cancelSchedule (confirm : String → String → Bool) (chargeJobArmed : Bool)
    (st : ManagerState) : ManagerState × List Action :=
  let tr0 := if chargeJobArmed then [Action.cancelJob] else []
  let tr1 := if st.monitoringActive then [Action.cancelMonitor] else []
  let st1 := { st with monitoringActive := false }
  if st1.isCharging then
    let r := stopCharging confirm st1
    ({ r.1 with currentSchedule := none }, tr0 ++ tr1 ++ r.2)
  else
    ({ st1 with currentSchedule := none }, tr0 ++ tr1)

/-- A local wall-clock datetime at the precision Python's `datetime`
comparisons use: a day index plus hour, minute, second, microsecond. -/
structure LocalDT where
  day : Int
  hour : Nat
  minute : Nat
  second : Nat
  micro : Nat
deriving DecidableEq, Repr

/-- `datetime` comparison `a <= b`, lexicographic. -/
def dtLe (a b : LocalDT) : Bool :=
  decide (a.day < b.day) ||
    (decide (a.day = b.day) &&
      (Nat.blt a.hour b.hour ||
        (a.hour == b.hour &&
          (Nat.blt a.minute b.minute ||
            (a.minute == b.minute &&
              (Nat.blt a.second b.second ||
                (a.second == b.second && Nat.ble a.micro b.micro)))))))

/-- `datetime` comparison `a < b`. -/
def dtLt (a b : LocalDT) : Bool :=
  dtLe a b && decide (a ≠ b)

/-- `dt + timedelta(days=1)`. -/
def addDay (d : LocalDT) : LocalDT :=
  { d with day := d.day + 1 }

/-- The legacy branch of `_calculate_next_run` (manager.py lines 149-160):
`next_run = now.replace(hour=h, minute=m, second=0, microsecond=0)`, rolled
to tomorrow when `next_run <= now`. -/
def legacyNextRun (now : LocalDT) (h m : Nat) : LocalDT :=
  let nr : LocalDT := { day := now.day, hour := h, minute := m, second := 0, micro := 0 }
  if dtLe nr now then addDay nr else nr

/-- `ChargingScheduleManager._calculate_next_run` (manager.py lines
124-160).  `isoLocal` is the external `dateutil_parser.parse` composed
with `astimezone()`: the parsed instant rendered in local time, `none` on
parse failure.  A string matching the HH:MM regex takes the legacy path; a
non-matching string is ISO-parsed and the resulting instant returned
unchanged (no past-time check); on ISO parse failure the code falls
through to the legacy split, whose own failure (a raised `ValueError`) is
`none`. -/
def calculateNextRun (isoLocal : String → Option LocalDT) (now : LocalDT)
    (s : String) : Option LocalDT :=
  if matchesHHMM s then
    match parseHM s with
    | some (h, m) => some (legacyNextRun now h m)
    | none => none
  else
    match isoLocal s with
    | some dt => some dt
    | none =>
      match parseHM s with
      | some (h, m) => some (legacyNextRun now h m)
      | none => none

/-- Modelled from the spec claim's words (C3), for comparison with the
source-derived traces: a stop trace "first issues the disable command,
then cancels the safety-cutoff timer and the monitoring loop, and then
clears the session's is-charging flag". -/
def claimedStopOrdering (tr : List Action) : Bool :=
  match tr.findIdx? (· == Action.publish "ACCharge" "0"),
        tr.findIdx? (· == Action.cancelTimer),
        tr.findIdx? (· == Action.cancelMonitor),
        tr.findIdx? (· == Action.clearFlag) with
  | some i, some j, some k, some l =>
    decide (i < j) && decide (i < k) && decide (j < l) && decide (k < l)
  | _, _, _, _ => false

/-- The reschedule/clear decisions in a trace — the "completion handling"
the claims compare across stop causes. -/
def completionActs (tr : List Action) : List Action :=
  tr.filter (fun a => a == Action.reschedule || a == Action.clearSchedule)

theorem firstMatching_eq_none {p : String} {acks : List Ack}
    (h : ∀ x ∈ acks, x.setting ≠ p) : firstMatching p acks = none := by
  induction acks with
  | nil => rfl
  | cons a rest ih =>
    have ha : a.setting ≠ p := h a (List.mem_cons_self a rest)
    simp only [firstMatching, beq_iff_eq, if_neg ha]
    exact ih fun x hx => h x (List.mem_cons_of_mem a hx)

theorem pubSeq_success (c : String → String → Bool)
    (l : List (String × String)) :
    (publishSettingsSequentially c l).2 = l.all fun kv => c kv.1 kv.2 := by
  induction l with
  | nil => rfl
  | cons kv rest ih =>
    obtain ⟨k, v⟩ := kv
    by_cases h : c k v <;>
      simp [publishSettingsSequentially, h, ih]

theorem pubSeq_trace (c : String → String → Bool)
    (l : List (String × String)) :
    (publishSettingsSequentially c l).1 =
      (l.map fun kv => Action.publish kv.1 kv.2 ::
        if c kv.1 kv.2 then [] else [Action.sleepHalf]).flatten := by
  induction l with
  | nil => rfl
  | cons kv rest ih =>
    obtain ⟨k, v⟩ := kv
    by_cases h : c k v <;>
      simp [publishSettingsSequentially, h, ih]

theorem pubSeq_publishes (c : String → String → Bool)
    (l : List (String × String)) :
    publishesOf (publishSettingsSequentially c l).1 = l := by
  induction l with
  | nil => rfl
  | cons kv rest ih =>
    obtain ⟨k, v⟩ := kv
    by_cases h : c k v <;>
      simp [publishSettingsSequentially, publishesOf, pubOf, h,
        List.filterMap_cons] <;>
      simpa [publishesOf] using ih

theorem mem_pubSeq_trace {a : Action} (c : String → String → Bool)
    (l : List (String × String))
    (h : a ∈ (publishSettingsSequentially c l).1) :
    (∃ k v, a = Action.publish k v) ∨ a = Action.sleepHalf := by
  induction l with
  | nil => simp [publishSettingsSequentially] at h
  | cons kv rest ih =>
    obtain ⟨k, v⟩ := kv
    by_cases hc : c k v <;>
      simp [publishSettingsSequentially, hc] at h <;>
      rcases h with h | h
    · exact Or.inl ⟨k, v, h⟩
    · exact ih h
    · exact Or.inl ⟨k, v, h⟩
    · rcases h with h | h
      · exact Or.inr h
      · exact ih h

theorem monitorStop_sound {t : Nat} {l : List (Option Nat)} {i : Nat}
    (h : monitorStop t l = some i) :
    ∃ soc, l.get? i = some (some soc) ∧ t ≤ soc := by
  induction l generalizing i with
  | nil => simp [monitorStop] at h
  | cons s rest ih =>
    cases s with
    | some soc =>
      by_cases hts : t ≤ soc
      · simp only [monitorStop, if_pos hts, Option.some.injEq] at h
        exact ⟨soc, by simp [← h], hts⟩
      · simp only [monitorStop, if_neg hts, Option.map_eq_some'] at h
        obtain ⟨j, hj, hij⟩ := h
        obtain ⟨soc2, hget, hle⟩ := ih hj
        exact ⟨soc2, by rw [← hij, List.get?_cons_succ]; exact hget, hle⟩
    | none =>
      simp only [monitorStop, Option.map_eq_some'] at h
      obtain ⟨j, hj, hij⟩ := h
      obtain ⟨soc2, hget, hle⟩ := ih hj
      exact ⟨soc2, by rw [← hij, List.get?_cons_succ]; exact hget, hle⟩

/-- C4: an inbound acknowledgment sets the single-flight wait's event if
and only if its `setting` key equals the pending key, and when no
acknowledgment in the inbound stream carries the pending key the wait is
never resolved and `_publish_and_wait` returns false (timeout) — the
mismatched acknowledgments are never applied as the command's outcome. -/
theorem c4_ack_exact_key_match (st : WaitState) (p : String) (a : Ack)
    (hp : st.pendingSetting = some p) (he : st.eventSet = false) :
    ((onResponse a st).eventSet = true ↔ a.setting = p) ∧
    ∀ acks : List Ack, (∀ x ∈ acks, x.setting ≠ p) →
      publishAndWait true true p acks = false := by
  constructor
  · simp [onResponse, hp, he]
  · intro acks hacks
    simp [publishAndWait, firstMatching_eq_none hacks]

/-- Witness for C4 at the spec's own example: pending `"ACCharge"`, an
incoming acknowledgment for `"ACChgMode"` does not set the event, and a
stream holding only that acknowledgment times out with result false. -/
theorem c4_ack_exact_key_match_witness :
    ((onResponse ⟨"ACChgMode", true⟩ ⟨some "ACCharge", none, false⟩).eventSet = true ↔
      "ACChgMode" = "ACCharge") ∧
    publishAndWait true true "ACCharge" [⟨"ACChgMode", true⟩] = false := by
  have h := c4_ack_exact_key_match ⟨some "ACCharge", none, false⟩ "ACCharge"
    ⟨"ACChgMode", true⟩ rfl rfl
  exact ⟨h.1, h.2 [⟨"ACChgMode", true⟩] (by decide)⟩

/-- C5: `publish_settings_sequentially` returns true iff every step was
confirmed, its trace is each setting published in list order with a 0.5 s
fallback delay inserted directly after any failed step (the sequence is
never aborted early), and the published pairs are exactly the input list
in order. -/
theorem c5_send_sequence (c : String → String → Bool)
    (l : List (String × String)) :
    (publishSettingsSequentially c l).2 = (l.all fun kv => c kv.1 kv.2) ∧
    (publishSettingsSequentially c l).1 =
      (l.map fun kv => Action.publish kv.1 kv.2 ::
        if c kv.1 kv.2 then [] else [Action.sleepHalf]).flatten ∧
    publishesOf (publishSettingsSequentially c l).1 = l :=
  ⟨pubSeq_success c l, pubSeq_trace c l, pubSeq_publishes c l⟩

/-- C9: whenever the monitoring loop stops, the sample at the stopping
wake is a known SOC at or above target — a null/unknown SOC never triggers
a stop — and on the telemetry sequence SOC=70, null, null, 81 with target
80 the loop stops exactly at the sample with SOC=81. -/
theorem c9_null_soc_never_stops (target : Nat) (samples : List (Option Nat))
    (i : Nat) (h : monitorStop target samples = some i) :
    (∃ soc, samples.get? i = some (some soc) ∧ target ≤ soc) ∧
    monitorStop 80 [some 70, none, none, some 81] = some 3 :=
  ⟨monitorStop_sound h, rfl⟩

/-- Witness for C9 on the spec's sequence SOC=70, null, null, 81. -/
theorem c9_null_soc_never_stops_witness :
    (∃ soc, [some 70, none, none, some 81].get? 3 = some (some soc) ∧ 80 ≤ soc) ∧
    monitorStop 80 [some 70, none, none, some 81] = some 3 :=
  c9_null_soc_never_stops 80 [some 70, none, none, some 81] 3 rfl

/-- C10: `_stop_charging` behaves identically whatever
`publish_ac_charge_disable` returns — the result of the disable publish is
discarded — and it unconditionally clears `is_charging` and disarms the
safety-cutoff timer while still emitting the disable publish, so the
backend reports not-charging even when the device never acknowledged the
disable. -/
theorem c10_stop_ignores_disable_result (c₁ c₂ : String → String → Bool)
    (st : ManagerState) :
    stopCharging c₁ st = stopCharging c₂ st ∧
    (stopCharging c₁ st).1.isCharging = false ∧
    (stopCharging c₁ st).1.cutoffArmed = false ∧
    Action.publish "ACCharge" "0" ∈ (stopCharging c₁ st).2 := by
  refine ⟨rfl, rfl, rfl, ?_⟩
  simp [stopCharging]

theorem publishesOf_nil : publishesOf [] = [] := rfl

theorem publishesOf_append (a b : List Action) :
    publishesOf (a ++ b) = publishesOf a ++ publishesOf b :=
  List.filterMap_append a b pubOf

theorem publishesOf_cons_pub (k v : String) (tr : List Action) :
    publishesOf (Action.publish k v :: tr) = (k, v) :: publishesOf tr := by
  simp [publishesOf, pubOf, List.filterMap_cons]

theorem publishesOf_cons_sleep (tr : List Action) :
    publishesOf (Action.sleepHalf :: tr) = publishesOf tr := by
  simp [publishesOf, pubOf, List.filterMap_cons]

theorem extractTimeString_hhmm (iso : String → Option String) (nowS : String)
    {s : String} (hs : matchesHHMM s = true) :
    extractTimeString iso nowS s = s := by
  simp [extractTimeString, hs]

/-- C1 (amended): a successful `_start_charging` publishes, in this exact
order, `ACCharge=1`, the time-window start, the end = start +
safety-cutoff-hours wrapping at 24h, then the TWO secondary time windows
zeroed to "00:00", then `ACChgMode=4`, then `ACChgSOCLimit=target`; the
mode setting sits strictly before the SOC limit (positions 7 and 8); and
`_stop_charging` publishes exactly `ACCharge=0`. -/
theorem c1_start_sequence_amended (c : String → String → Bool)
    (iso : String → Option String) (nowS s : String) (cutoff target : Nat)
    (st : ManagerState) (hs : matchesHHMM s = true)
    (hok : (startCharging c iso nowS s cutoff target).2 = true) :
    publishesOf (startCharging c iso nowS s cutoff target).1 =
      [("ACCharge", "1"),
       ("ACChgStart", s), ("ACChgEnd", calculateEndTime s cutoff),
       ("ACChgStart1", "00:00"), ("ACChgEnd1", "00:00"),
       ("ACChgStart2", "00:00"), ("ACChgEnd2", "00:00"),
       ("ACChgMode", "4"), ("ACChgSOCLimit", toString target)] ∧
    (publishesOf (startCharging c iso nowS s cutoff target).1).get? 7 =
      some ("ACChgMode", "4") ∧
    (publishesOf (startCharging c iso nowS s cutoff target).1).get? 8 =
      some ("ACChgSOCLimit", toString target) ∧
    publishesOf (stopCharging c st).2 = [("ACCharge", "0")] := by
  have hex : extractTimeString iso nowS s = s := extractTimeString_hhmm iso nowS hs
  by_cases h1 : c "ACCharge" "1" = true
  · by_cases h2 :
      (publishSettingsSequentially c (timeSettings s (calculateEndTime s cutoff))).2 = true
    · by_cases h3 : c "ACChgMode" "4" = true
      · by_cases h4 : c "ACChgSOCLimit" (toString target) = true
        · have htr : publishesOf (startCharging c iso nowS s cutoff target).1 =
              [("ACCharge", "1"),
               ("ACChgStart", s), ("ACChgEnd", calculateEndTime s cutoff),
               ("ACChgStart1", "00:00"), ("ACChgEnd1", "00:00"),
               ("ACChgStart2", "00:00"), ("ACChgEnd2", "00:00"),
               ("ACChgMode", "4"), ("ACChgSOCLimit", toString target)] := by
            simp only [startCharging, hex, h1, h2, h3, h4, Bool.not_true,
              Bool.false_eq_true, if_false]
            simp [publishesOf_append, publishesOf_cons_pub,
              publishesOf_cons_sleep, publishesOf_nil, pubSeq_publishes,
              timeSettings]
          refine ⟨htr, by rw [htr]; rfl, by rw [htr]; rfl, ?_⟩
          by_cases hca : st.cutoffArmed <;>
            simp [stopCharging, hca, publishesOf, pubOf, List.filterMap_cons]
        · simp [startCharging, hex, h1, h2, h3, h4] at hok
      · simp [startCharging, hex, h1, h2, h3] at hok
    · simp [startCharging, hex, h1, h2] at hok
  · simp [startCharging, h1] at hok

/-- Counterexample to C1 as stated: the claim requires THREE disabled
secondary time windows (six settings valued "00:00"), but a fully
confirmed start sequence for start time "01:00" publishes only four
"00:00"-valued settings (two secondary windows) among its nine settings. -/
theorem c1_start_sequence_counterexample :
    ((publishesOf (startCharging (fun _ _ => true) (fun _ => none) "12:00"
        "01:00" 8 80).1).countP (fun kv => kv.2 == "00:00") = 4) ∧
    ¬ ((publishesOf (startCharging (fun _ _ => true) (fun _ => none) "12:00"
        "01:00" 8 80).1).countP (fun kv => kv.2 == "00:00") = 6) ∧
    (publishesOf (startCharging (fun _ _ => true) (fun _ => none) "12:00"
        "01:00" 8 80).1).length = 9 := by
  decide

/-- Witness for C1 (amended) at start "01:00", cutoff 8 h, target 80 %,
with every step confirmed. -/
theorem c1_start_sequence_amended_witness :
    publishesOf (startCharging (fun _ _ => true) (fun _ => none) "12:00"
        "01:00" 8 80).1 =
      [("ACCharge", "1"),
       ("ACChgStart", "01:00"), ("ACChgEnd", calculateEndTime "01:00" 8),
       ("ACChgStart1", "00:00"), ("ACChgEnd1", "00:00"),
       ("ACChgStart2", "00:00"), ("ACChgEnd2", "00:00"),
       ("ACChgMode", "4"), ("ACChgSOCLimit", toString 80)] ∧
    (publishesOf (startCharging (fun _ _ => true) (fun _ => none) "12:00"
        "01:00" 8 80).1).get? 7 = some ("ACChgMode", "4") ∧
    (publishesOf (startCharging (fun _ _ => true) (fun _ => none) "12:00"
        "01:00" 8 80).1).get? 8 = some ("ACChgSOCLimit", toString 80) ∧
    publishesOf (stopCharging (fun _ _ => true)
        ⟨true, true, true, none⟩).2 = [("ACCharge", "0")] :=
  c1_start_sequence_amended (fun _ _ => true) (fun _ => none) "12:00" "01:00"
    8 80 ⟨true, true, true, none⟩ (by decide) (by decide)

/-- Counterexample to C3 as stated: the required ordering (disable first,
then cancel the safety-cutoff timer and the monitoring loop, then clear
the is-charging flag) is violated on both the explicit-cancel and the
safety-cutoff stop paths — the explicit cancel cancels the monitoring loop
BEFORE issuing the disable, both paths clear the flag BEFORE cancelling
the timer, and the stop routine never cancels the monitoring loop at
all. -/
theorem c3_stop_ordering_counterexample :
    claimedStopOrdering (cancelSchedule (fun _ _ => true) false
      ⟨true, true, true, some ⟨80, "01:00", "once", true⟩⟩).2 = false ∧
    claimedStopOrdering (safetyCutoff (fun _ _ => true)
      ⟨true, true, true, some ⟨80, "01:00", "recurring", true⟩⟩).2 = false ∧
    (cancelSchedule (fun _ _ => true) false
      ⟨true, true, true, some ⟨80, "01:00", "once", true⟩⟩).2 =
      [Action.cancelMonitor, Action.publish "ACCharge" "0", Action.clearFlag,
       Action.cancelTimer] := by
  decide

/-- C3 (amended): every stop cause runs `_stop_charging`, which first
issues the disable command, then clears the is-charging flag, and then
cancels the safety-cutoff timer; it never cancels the monitoring loop
itself (the loop ends via the cleared flag or its own break); the
target-reached and safety-cutoff traces begin with exactly that stop
prefix, and an explicit cancel cancels the monitoring loop before the
disable is issued. -/
theorem c3_stop_effects_amended (c : String → String → Bool)
    (st : ManagerState) (sched : ScheduleData)
    (ha : st.cutoffArmed = true) (hm : st.monitoringActive = true)
    (hc : st.isCharging = true) :
    (stopCharging c st).2 =
      [Action.publish "ACCharge" "0", Action.clearFlag, Action.cancelTimer] ∧
    (stopCharging c st).1.isCharging = false ∧
    Action.cancelMonitor ∉ (stopCharging c st).2 ∧
    (safetyCutoff c st).2.take 3 =
      [Action.publish "ACCharge" "0", Action.clearFlag, Action.cancelTimer] ∧
    (targetReachedStop c sched st).2.take 3 =
      [Action.publish "ACCharge" "0", Action.clearFlag, Action.cancelTimer] ∧
    (cancelSchedule c false st).2 =
      [Action.cancelMonitor, Action.publish "ACCharge" "0", Action.clearFlag,
       Action.cancelTimer] := by
  have hstop : (stopCharging c st).2 =
      [Action.publish "ACCharge" "0", Action.clearFlag, Action.cancelTimer] := by
    simp [stopCharging, ha]
  refine ⟨hstop, rfl, by rw [hstop]; decide, ?_, ?_, ?_⟩
  · rcases hcs : st.currentSchedule with _ | cs
    · simp [safetyCutoff, stopCharging, ha, hcs, List.take_succ_cons]
    · by_cases hr : cs.mode == "recurring"
      · simp [safetyCutoff, stopCharging, ha, hcs, hr, rescheduleRecurring,
          List.take_succ_cons]
      · by_cases ho : cs.mode == "once"
        · simp [safetyCutoff, stopCharging, ha, hcs, hr, ho,
            clearOneTimeSchedule, List.take_succ_cons]
        · simp [safetyCutoff, stopCharging, ha, hcs, hr, ho,
            List.take_succ_cons]
  · rcases hcs : st.currentSchedule with _ | cs
    · by_cases hr : sched.mode == "recurring"
      · simp [targetReachedStop, stopCharging, ha, hcs, hr,
          List.take_succ_cons]
      · by_cases ho : sched.mode == "once"
        · simp [targetReachedStop, stopCharging, ha, hcs, hr, ho,
            clearOneTimeSchedule, List.take_succ_cons]
        · simp [targetReachedStop, stopCharging, ha, hcs, hr, ho,
            List.take_succ_cons]
    · by_cases hr : sched.mode == "recurring"
      · simp [targetReachedStop, stopCharging, ha, hcs, hr,
          rescheduleRecurring, List.take_succ_cons]
      · by_cases ho : sched.mode == "once"
        · simp [targetReachedStop, stopCharging, ha, hcs, hr, ho,
            clearOneTimeSchedule, List.take_succ_cons]
        · simp [targetReachedStop, stopCharging, ha, hcs, hr, ho,
            List.take_succ_cons]
  · simp [cancelSchedule, stopCharging, hm, hc, ha]

/-- Witness for C3 (amended) at a fully armed charging state. -/
theorem c3_stop_effects_amended_witness :
    (stopCharging (fun _ _ => true) ⟨true, true, true, none⟩).2 =
      [Action.publish "ACCharge" "0", Action.clearFlag, Action.cancelTimer] ∧
    (stopCharging (fun _ _ => true) ⟨true, true, true, none⟩).1.isCharging = false ∧
    Action.cancelMonitor ∉ (stopCharging (fun _ _ => true)
      ⟨true, true, true, none⟩).2 ∧
    (safetyCutoff (fun _ _ => true) ⟨true, true, true, none⟩).2.take 3 =
      [Action.publish "ACCharge" "0", Action.clearFlag, Action.cancelTimer] ∧
    (targetReachedStop (fun _ _ => true) ⟨80, "01:00", "once", true⟩
      ⟨true, true, true, none⟩).2.take 3 =
      [Action.publish "ACCharge" "0", Action.clearFlag, Action.cancelTimer] ∧
    (cancelSchedule (fun _ _ => true) false ⟨true, true, true, none⟩).2 =
      [Action.cancelMonitor, Action.publish "ACCharge" "0", Action.clearFlag,
       Action.cancelTimer] :=
  c3_stop_effects_amended (fun _ _ => true) ⟨true, true, true, none⟩
    ⟨80, "01:00", "once", true⟩ rfl rfl rfl

theorem monitorStop_below {t : Nat} {l : List (Option Nat)}
    (h : ∀ v : Nat, some v ∈ l → v < t) : monitorStop t l = none := by
  induction l with
  | nil => rfl
  | cons s rest ih =>
    have ih2 := ih fun v hv => h v (List.mem_cons_of_mem s hv)
    cases s with
    | some v =>
      have hv := h v (List.mem_cons_self _ _)
      simp [monitorStop, if_neg (Nat.not_le.mpr hv), ih2]
    | none => simp [monitorStop, ih2]

theorem completionActs_append (a b : List Action) :
    completionActs (a ++ b) = completionActs a ++ completionActs b := by
  simp [completionActs]

theorem completionActs_stop (c : String → String → Bool) (st : ManagerState) :
    completionActs (stopCharging c st).2 = [] := by
  by_cases ha : st.cutoffArmed <;> simp [stopCharging, ha, completionActs]

/-- C6: while charging with the session's schedule installed as the
current schedule, telemetry that never reaches the target never stops the
monitoring loop; the safety cutoff then stops the session (is-charging
becomes false) and its completion handling — the reschedule/clear
decisions and the resulting stored schedule — is identical to that of a
target-reached stop. -/
theorem c6_safety_cutoff_matches_target_stop (c : String → String → Bool)
    (st : ManagerState) (sched : ScheduleData) (samples : List (Option Nat))
    (hcs : st.currentSchedule = some sched)
    (hbelow : ∀ v : Nat, some v ∈ samples → v < sched.targetSoc) :
    monitorStop sched.targetSoc samples = none ∧
    (safetyCutoff c st).1.isCharging = false ∧
    completionActs (safetyCutoff c st).2 =
      completionActs (targetReachedStop c sched st).2 ∧
    (safetyCutoff c st).1.currentSchedule =
      (targetReachedStop c sched st).1.currentSchedule := by
  refine ⟨monitorStop_below hbelow, ?_, ?_, ?_⟩
  · by_cases hr : sched.mode == "recurring" <;>
      by_cases ho : sched.mode == "once" <;>
      simp [safetyCutoff, stopCharging, hcs, hr, ho, clearOneTimeSchedule]
  · by_cases hr : sched.mode == "recurring"
    · simp [safetyCutoff, targetReachedStop, stopCharging, hcs, hr,
        completionActs_append, completionActs, rescheduleRecurring]
    · by_cases ho : sched.mode == "once"
      · simp [safetyCutoff, targetReachedStop, stopCharging, hcs, hr, ho,
          completionActs_append, completionActs, clearOneTimeSchedule]
      · simp [safetyCutoff, targetReachedStop, stopCharging, hcs, hr, ho,
          completionActs_append, completionActs]
  · by_cases hr : sched.mode == "recurring"
    · simp [safetyCutoff, targetReachedStop, stopCharging, hcs, hr]
    · by_cases ho : sched.mode == "once"
      · simp [safetyCutoff, targetReachedStop, stopCharging, hcs, hr, ho,
          clearOneTimeSchedule]
      · simp [safetyCutoff, targetReachedStop, stopCharging, hcs, hr, ho]

/-- Witness for C6: a recurring schedule, telemetry 70 then unknown, both
below target 80. -/
theorem c6_safety_cutoff_matches_target_stop_witness :
    monitorStop 80 [some 70, none] = none ∧
    (safetyCutoff (fun _ _ => true)
      ⟨true, true, true, some ⟨80, "01:00", "recurring", true⟩⟩).1.isCharging =
      false ∧
    completionActs (safetyCutoff (fun _ _ => true)
      ⟨true, true, true, some ⟨80, "01:00", "recurring", true⟩⟩).2 =
      completionActs (targetReachedStop (fun _ _ => true)
        ⟨80, "01:00", "recurring", true⟩
        ⟨true, true, true, some ⟨80, "01:00", "recurring", true⟩⟩).2 ∧
    (safetyCutoff (fun _ _ => true)
      ⟨true, true, true, some ⟨80, "01:00", "recurring", true⟩⟩).1.currentSchedule =
      (targetReachedStop (fun _ _ => true) ⟨80, "01:00", "recurring", true⟩
        ⟨true, true, true, some ⟨80, "01:00", "recurring", true⟩⟩).1.currentSchedule :=
  c6_safety_cutoff_matches_target_stop (fun _ _ => true)
    ⟨true, true, true, some ⟨80, "01:00", "recurring", true⟩⟩
    ⟨80, "01:00", "recurring", true⟩ [some 70, none] rfl
    (fun v hv => by simp at hv; subst hv; decide)

/-- Counterexample to C7 as stated: the code rolls to tomorrow whenever
`next_run <= now`, so at local time exactly 14:30:00.000000 the spec
"14:30" — which is NOT already past (it is now, `dtLt` is false) — is
nevertheless returned as 14:30 tomorrow. -/
theorem c7_next_run_counterexample :
    calculateNextRun (fun _ => none) ⟨0, 14, 30, 0, 0⟩ "14:30" =
      some ⟨1, 14, 30, 0, 0⟩ ∧
    dtLt ⟨0, 14, 30, 0, 0⟩ ⟨0, 14, 30, 0, 0⟩ = false := by
  decide

/-- C7 (amended): a bare HH:MM spec is interpreted in local time and
rolled to tomorrow exactly when today's occurrence (seconds and
microseconds zeroed) is past OR EQUAL to the current instant (`<=`, not
strictly past); at local 15:00 "14:30" yields tomorrow 14:30 and at 14:00
it yields today 14:30; a non-HH:MM spec that ISO-parses is returned
exactly as the parsed local instant, independent of the current time and
without error even when it lies in the past. -/
theorem c7_next_run_amended (isoLocal : String → Option LocalDT)
    (now : LocalDT) (s : String) (dt : LocalDT) (h m : Nat) :
    (matchesHHMM s = true → parseHM s = some (h, m) →
      calculateNextRun isoLocal now s =
        some (if dtLe ⟨now.day, h, m, 0, 0⟩ now = true
              then addDay ⟨now.day, h, m, 0, 0⟩
              else ⟨now.day, h, m, 0, 0⟩)) ∧
    (matchesHHMM s = false → isoLocal s = some dt → dtLt dt now = true →
      calculateNextRun isoLocal now s = some dt) ∧
    calculateNextRun isoLocal ⟨0, 15, 0, 0, 0⟩ "14:30" =
      some ⟨1, 14, 30, 0, 0⟩ ∧
    calculateNextRun isoLocal ⟨0, 14, 0, 0, 0⟩ "14:30" =
      some ⟨0, 14, 30, 0, 0⟩ := by
  refine ⟨?_, ?_, rfl, rfl⟩
  · intro hmm hpm
    simp [calculateNextRun, hmm, hpm, legacyNextRun]
  · intro hmm hiso _
    simp [calculateNextRun, hmm, hiso]

/-- Witness for C7 (amended): a past timezone-aware instant is returned
as-is, and the two HH:MM examples evaluate as stated. -/
theorem c7_next_run_amended_witness :
    calculateNextRun (fun _ => some ⟨-3, 1, 2, 3, 4⟩) ⟨0, 12, 0, 0, 0⟩
      "2024-01-01T01:02:03+00:00" = some ⟨-3, 1, 2, 3, 4⟩ ∧
    calculateNextRun (fun _ => none) ⟨0, 15, 0, 0, 0⟩ "14:30" =
      some ⟨1, 14, 30, 0, 0⟩ := by
  constructor
  · exact (c7_next_run_amended (fun _ => some ⟨-3, 1, 2, 3, 4⟩)
      ⟨0, 12, 0, 0, 0⟩ "2024-01-01T01:02:03+00:00" ⟨-3, 1, 2, 3, 4⟩ 0 0).2.1
      (by decide) rfl (by decide)
  · exact (c7_next_run_amended (fun _ => none) ⟨0, 15, 0, 0, 0⟩ "x"
      ⟨0, 0, 0, 0, 0⟩ 0 0).2.2.1

/-- Counterexample to C8 as stated: with a one-time schedule, last-known
SOC 85 ≥ target 80, the skip path contacts no device but also does NOT
clear the schedule — the state (including the stored one-time schedule) is
returned unchanged with an empty action trace. -/
theorem c8_skip_counterexample :
    executeCharge (fun _ _ => true) (fun _ => none) "12:00" (some 85)
        ⟨80, "01:00", "once", true⟩ 8
        ⟨false, false, false, some ⟨80, "01:00", "once", true⟩⟩ =
      (⟨false, false, false, some ⟨80, "01:00", "once", true⟩⟩, []) ∧
    (executeCharge (fun _ _ => true) (fun _ => none) "12:00" (some 85)
        ⟨80, "01:00", "once", true⟩ 8
        ⟨false, false, false, some ⟨80, "01:00", "once", true⟩⟩).1.currentSchedule ≠
      none ∧
    Action.clearSchedule ∉
      (executeCharge (fun _ _ => true) (fun _ => none) "12:00" (some 85)
        ⟨80, "01:00", "once", true⟩ 8
        ⟨false, false, false, some ⟨80, "01:00", "once", true⟩⟩).2 := by
  decide

/-- C8 (amended): when the last-known SOC is known and at or above target,
`_execute_charge` skips the device entirely — the manager state is
unchanged, no setting is published — and the only completion handling is
rescheduling a recurring schedule; a one-time schedule is left in place,
not cleared. -/
theorem c8_skip_amended (c : String → String → Bool)
    (iso : String → Option String) (nowS : String) (sched : ScheduleData)
    (cutoff : Nat) (st : ManagerState) (v : Nat)
    (hv : sched.targetSoc ≤ v) :
    (executeCharge c iso nowS (some v) sched cutoff st).1 = st ∧
    (executeCharge c iso nowS (some v) sched cutoff st).2 =
      (if sched.mode == "recurring" then rescheduleRecurring sched else []) ∧
    publishesOf (executeCharge c iso nowS (some v) sched cutoff st).2 = [] := by
  refine ⟨by simp [executeCharge, hv], by simp [executeCharge, hv], ?_⟩
  by_cases hr : sched.mode == "recurring"
  · by_cases he : sched.enabled <;>
      simp [executeCharge, hv, hr, rescheduleRecurring, he, publishesOf,
        pubOf, List.filterMap_cons]
  · simp [executeCharge, hv, hr, publishesOf]

/-- Witness for C8 (amended) with a recurring schedule at SOC 85 ≥ 80. -/
theorem c8_skip_amended_witness :
    (executeCharge (fun _ _ => true) (fun _ => none) "12:00" (some 85)
        ⟨80, "01:00", "recurring", true⟩ 8
        ⟨false, false, false, some ⟨80, "01:00", "recurring", true⟩⟩).1 =
      ⟨false, false, false, some ⟨80, "01:00", "recurring", true⟩⟩ ∧
    (executeCharge (fun _ _ => true) (fun _ => none) "12:00" (some 85)
        ⟨80, "01:00", "recurring", true⟩ 8
        ⟨false, false, false, some ⟨80, "01:00", "recurring", true⟩⟩).2 =
      (if ScheduleData.mode ⟨80, "01:00", "recurring", true⟩ == "recurring"
       then rescheduleRecurring ⟨80, "01:00", "recurring", true⟩ else []) ∧
    publishesOf (executeCharge (fun _ _ => true) (fun _ => none) "12:00"
        (some 85) ⟨80, "01:00", "recurring", true⟩ 8
        ⟨false, false, false, some ⟨80, "01:00", "recurring", true⟩⟩).2 = [] :=
  c8_skip_amended (fun _ _ => true) (fun _ => none) "12:00"
    ⟨80, "01:00", "recurring", true⟩ 8
    ⟨false, false, false, some ⟨80, "01:00", "recurring", true⟩⟩ 85
    (by decide)

theorem pubSeq_no_monitor (c : String → String → Bool)
    (l : List (String × String)) :
    Action.startMonitor ∉ (publishSettingsSequentially c l).1 := by
  induction l with
  | nil => simp [publishSettingsSequentially]
  | cons kv rest ih =>
    obtain ⟨k, v⟩ := kv
    by_cases h : c k v <;> simp [publishSettingsSequentially, h, ih]

theorem startMonitor_not_mem_start (c : String → String → Bool)
    (iso : String → Option String) (nowS s : String) (cutoff target : Nat) :
    Action.startMonitor ∉ (startCharging c iso nowS s cutoff target).1 := by
  unfold startCharging
  split_ifs <;>
    try simp [List.mem_append, pubSeq_no_monitor]
  all_goals
    split_ifs <;> simp [List.mem_append, pubSeq_no_monitor]

theorem startCharging_success_eq (c : String → String → Bool)
    (iso : String → Option String) (nowS s : String) (cutoff target : Nat) :
    (startCharging c iso nowS s cutoff target).2 =
      (startSettingsList iso nowS s cutoff target).all
        fun kv => c kv.1 kv.2 := by
  by_cases h1 : c "ACCharge" "1" = true
  · by_cases h2 : (publishSettingsSequentially c
        (timeSettings (extractTimeString iso nowS s)
          (calculateEndTime (extractTimeString iso nowS s) cutoff))).2 = true
    · have h2a := h2
      rw [pubSeq_success] at h2a
      by_cases h3 : c "ACChgMode" "4" = true
      · by_cases h4 : c "ACChgSOCLimit" (toString target) = true <;>
          simp [startCharging, startSettingsList, h1, h2, h2a, h3, h4,
            List.all_append]
      · simp [startCharging, startSettingsList, h1, h2, h2a, h3,
          List.all_append]
    · have h2a : (publishSettingsSequentially c
          (timeSettings (extractTimeString iso nowS s)
            (calculateEndTime (extractTimeString iso nowS s) cutoff))).2 = false :=
        Bool.eq_false_iff.mpr h2
      have h2b := h2a
      rw [pubSeq_success] at h2b
      simp [startCharging, startSettingsList, h1, h2a, h2b, List.all_append]
  · simp [startCharging, startSettingsList, h1,
      Bool.eq_false_iff.mpr h1]

/-- C2: if any step of the fixed start sequence fails (timeout, rejection
or transport error — any step whose confirmation is false), then
`_start_charging` returns false, `_execute_charge` leaves is-charging
false, and no monitoring loop is started. -/
theorem c2_failed_step_no_charging (c : String → String → Bool)
    (iso : String → Option String) (nowS : String) (sched : ScheduleData)
    (cutoff : Nat) (st : ManagerState) (currentSoc : Option Nat)
    (hsoc : currentSoc = none ∨
      ∃ v, currentSoc = some v ∧ v < sched.targetSoc)
    (hidle : st.isCharging = false)
    (hfail : ∃ kv ∈ startSettingsList iso nowS sched.startTime cutoff
        sched.targetSoc, c kv.1 kv.2 = false) :
    (startCharging c iso nowS sched.startTime cutoff sched.targetSoc).2 =
      false ∧
    (executeCharge c iso nowS currentSoc sched cutoff st).1.isCharging =
      false ∧
    Action.startMonitor ∉
      (executeCharge c iso nowS currentSoc sched cutoff st).2 := by
  have hsf : (startCharging c iso nowS sched.startTime cutoff
      sched.targetSoc).2 = false := by
    rw [startCharging_success_eq]
    obtain ⟨kv, hmem, hkv⟩ := hfail
    simp only [List.all_eq_false]
    exact ⟨kv, hmem, by simp [hkv]⟩
  refine ⟨hsf, ?_, ?_⟩
  · rcases hsoc with hnone | ⟨v, hv, hlt⟩
    · subst hnone
      simp [executeCharge, hsf, hidle]
    · subst hv
      simp [executeCharge, if_neg (Nat.not_le.mpr hlt), hsf, hidle]
  · rcases hsoc with hnone | ⟨v, hv, hlt⟩
    · subst hnone
      simp only [executeCharge, hsf, Bool.false_eq_true, if_false]
      exact startMonitor_not_mem_start c iso nowS sched.startTime cutoff
        sched.targetSoc
    · subst hv
      simp only [executeCharge, if_neg (Nat.not_le.mpr hlt), hsf,
        Bool.false_eq_true, if_false]
      exact startMonitor_not_mem_start c iso nowS sched.startTime cutoff
        sched.targetSoc

/-- Witness for C2: the confirmation of `ACChgMode` fails; the sequence
reports false, no charging state is entered, no monitor starts. -/
theorem c2_failed_step_no_charging_witness :
    (startCharging (fun k _ => !(k == "ACChgMode")) (fun _ => none) "12:00"
        "01:00" 8 80).2 = false ∧
    (executeCharge (fun k _ => !(k == "ACChgMode")) (fun _ => none) "12:00"
        none ⟨80, "01:00", "once", true⟩ 8
        ⟨false, false, false, none⟩).1.isCharging = false ∧
    Action.startMonitor ∉
      (executeCharge (fun k _ => !(k == "ACChgMode")) (fun _ => none) "12:00"
        none ⟨80, "01:00", "once", true⟩ 8
        ⟨false, false, false, none⟩).2 :=
  c2_failed_step_no_charging (fun k _ => !(k == "ACChgMode")) (fun _ => none)
    "12:00" ⟨80, "01:00", "once", true⟩ 8 ⟨false, false, false, none⟩ none
    (Or.inl rfl) rfl (by decide)

end SolarCharging
